import Mathlib

/-!
Shallow embedding of the capability-gating and audit core of the
langfuse-mcp server (mode resolution, capability gate, confirmation
guard, audit trail, and the call-tool dispatcher), together with
theorems settling the specification claims about it.

Sources embedded:
- `src/mode-config.ts` : `getServerMode`, `getModeConfig`, `isToolAllowed`,
  `isWriteTool`, `isDestructiveTool`, `validateConfirmation`.
- `src/audit-logger.ts` : `sanitizeArgs`, `logOperationStart`,
  `logOperationSuccess`, `logOperationError`, `logPermissionDenied`,
  `logConfirmationRequired` (audit entries are modelled structurally as an
  append-only list; the stderr text formatting is not modelled).
- `src/index.ts` (CallToolRequestSchema handler) : the dispatcher
  `callTool`, including the permission gate, the start/error audit
  logging, the per-tool switch, and the surrounding try/catch.
- `src/tools/*.ts` write handlers (`createDataset`, `createDatasetItem`,
  `deleteDatasetItem`, `createComment`) with their zod input schemas and
  their internal try/catch around the backend call.

External collaborators (the backend client and the read-class handlers)
are modelled as parameters of an `Env` record: one backend outcome for
the write handlers, and one parse/run outcome pair for the read tools.
-/

namespace LangfuseMcp

/-- Server mode, `src/types.ts`: `type ServerMode = 'readonly' | 'readwrite'`. -/
inductive ServerMode
  | readonly
  | readwrite
deriving DecidableEq, Repr

/-- Rendering of a `ServerMode` back to its source string. -/
def modeString : ServerMode → String
  | ServerMode.readonly => "readonly"
  | ServerMode.readwrite => "readwrite"

/-- Mode resolver, `src/mode-config.ts` `getServerMode`: lowercases and trims
the raw `LANGFUSE_MCP_MODE` value (modelled as an optional string) and
returns readwrite exactly for the recognized synonyms, readonly otherwise. -/
def getServerMode (envMode : Option String) : ServerMode :=
  match envMode with
  | none => ServerMode.readonly
  | some raw =>
    let mode := raw.toLower.trim
    if mode = "readwrite" ∨ mode = "rw" ∨ mode = "write" then
      ServerMode.readwrite
    else
      ServerMode.readonly

/-- Read-only tool names, `src/mode-config.ts` `getModeConfig` (readOnlyTools). -/
def readOnlyTools : List String :=
  [ "list_projects", "project_overview", "usage_by_model", "usage_by_service",
    "top_expensive_traces", "get_trace_detail",
    "get_projects", "get_metrics", "get_traces", "get_observations",
    "get_cost_analysis", "get_daily_metrics",
    "get_observation_detail", "get_health_status", "list_models",
    "get_model_detail", "list_prompts", "get_prompt_detail",
    "list_datasets", "get_dataset", "list_dataset_items", "get_dataset_item",
    "list_comments", "get_comment" ]

/-- Write tool names, `src/mode-config.ts` `getModeConfig` (writeTools),
including the four legacy unprefixed names. -/
def writeTools : List String :=
  [ "write_create_dataset", "write_create_dataset_item",
    "write_delete_dataset_item", "write_create_comment",
    "create_dataset", "create_dataset_item", "delete_dataset_item",
    "create_comment" ]

/-- Mode configuration, `src/types.ts` `ServerModeConfig` (the allowed-tool
set is modelled as a list; membership is what matters). -/
structure ServerModeConfig where
  mode : ServerMode
  allowedTools : List String

/-- Capability gate construction, `src/mode-config.ts` `getModeConfig`:
start from the read-only tools and add the write tools in readwrite mode. -/
def getModeConfig (mode : ServerMode) : ServerModeConfig :=
  let allowedTools :=
    readOnlyTools ++
      (match mode with
       | ServerMode.readwrite => writeTools
       | ServerMode.readonly => [])
  { mode := mode, allowedTools := allowedTools }

/-- Permission predicate, `src/mode-config.ts` `isToolAllowed`. -/
def isToolAllowed (toolName : String) (modeConfig : ServerModeConfig) : Bool :=
  modeConfig.allowedTools.contains toolName

/-- Legacy unprefixed write tool names listed inline in `isWriteTool`. -/
def legacyWriteToolNames : List String :=
  ["create_dataset", "create_dataset_item", "delete_dataset_item", "create_comment"]

/-- JavaScript `String.prototype.startsWith`, embedded over the character
sequences of the strings. -/
def jsStartsWith (s : String) (pat : String) : Bool :=
  pat.data.isPrefixOf s.data

/-- Write-class predicate, `src/mode-config.ts` `isWriteTool`: write_ prefix
or one of the legacy names, independent of mode. -/
def isWriteTool (toolName : String) : Bool :=
  jsStartsWith toolName "write_" || legacyWriteToolNames.contains toolName

/-- Destructive predicate, `src/mode-config.ts` `isDestructiveTool`. -/
def isDestructiveTool (toolName : String) : Bool :=
  toolName == "write_delete_dataset_item" || toolName == "delete_dataset_item"

/-- JSON-like values, modelling the JavaScript values that appear in a
tool call's argument map. -/
inductive JsonValue
  | str (s : String)
  | num (n : Int)
  | bool (b : Bool)
  | null
  | arr (elems : List JsonValue)
  | obj (fields : List (String × JsonValue))

/-- Argument maps (JavaScript objects with distinct keys, in insertion order). -/
abbrev Args : Type := List (String × JsonValue)

/-- JavaScript truthiness of a `JsonValue`, as used by
`if (sanitized[field])` in `sanitizeArgs`. -/
def truthy : JsonValue → Bool
  | JsonValue.str s => s != ""
  | JsonValue.num n => n != 0
  | JsonValue.bool b => b
  | JsonValue.null => false
  | JsonValue.arr _ => true
  | JsonValue.obj _ => true

/-- String escaping inside `JSON.stringify` (quote and backslash). -/
def jsonEscape (s : String) : String :=
  s.foldl
    (fun acc c =>
      if c = '"' then acc ++ "\\\""
      else if c = '\\' then acc ++ "\\\\"
      else acc.push c)
    ""

mutual

/-- Compact `JSON.stringify`, used by `sanitizeArgs` to measure the
serialized size of object values. -/
def jsonStringify : JsonValue → String
  | JsonValue.str s => "\"" ++ jsonEscape s ++ "\""
  | JsonValue.num n => toString n
  | JsonValue.bool b => if b then "true" else "false"
  | JsonValue.null => "null"
  | JsonValue.arr elems => "[" ++ String.intercalate "," (jsonStringifyList elems) ++ "]"
  | JsonValue.obj fields =>
      "\x7b" ++ String.intercalate "," (jsonStringifyFields fields) ++ "\x7d"

/-- Serialization of a list of array elements. -/
def jsonStringifyList : List JsonValue → List String
  | [] => []
  | v :: vs => jsonStringify v :: jsonStringifyList vs

/-- Serialization of a list of object fields. -/
def jsonStringifyFields : List (String × JsonValue) → List String
  | [] => []
  | (k, v) :: fs => ("\"" ++ jsonEscape k ++ "\":" ++ jsonStringify v) :: jsonStringifyFields fs

end

/-- Sensitive field names, `src/audit-logger.ts` `sanitizeArgs`. -/
def sensitiveFields : List String :=
  ["secretKey", "password", "token", "apiKey"]

/-- First pass of `sanitizeArgs`: a sensitive key whose value is truthy is
replaced by the redaction marker (`if (sanitized[field]) sanitized[field] =
'[REDACTED]'`). -/
def redactEntry : String × JsonValue → String × JsonValue
  | (key, value) =>
    if sensitiveFields.contains key && truthy value then
      (key, JsonValue.str "[REDACTED]")
    else
      (key, value)

/-- Second pass of `sanitizeArgs`: strings longer than 200 characters are
prefix-truncated with a suffix marker; non-null object values whose JSON
serialization exceeds 300 characters are elided. -/
def truncateEntry : String × JsonValue → String × JsonValue
  | (key, value) =>
    match value with
    | JsonValue.str s =>
        if s.length > 200 then
          (key, JsonValue.str ((s.take 200) ++ "...[truncated]"))
        else
          (key, JsonValue.str s)
    | JsonValue.arr elems =>
        if (jsonStringify (JsonValue.arr elems)).length > 300 then
          (key, JsonValue.str "[large object]")
        else
          (key, JsonValue.arr elems)
    | JsonValue.obj fields =>
        if (jsonStringify (JsonValue.obj fields)).length > 300 then
          (key, JsonValue.str "[large object]")
        else
          (key, JsonValue.obj fields)
    | other => (key, other)

/-- Redaction and truncation, `src/audit-logger.ts` `sanitizeArgs`: the
sensitive-field pass runs first over the copied map, then the size pass
runs over every remaining key. -/
def sanitizeArgs (args : Args) : Args :=
  (args.map redactEntry).map truncateEntry

/-- Audit entry phases: START/SUCCESS/ERROR write markers plus the denial
and initialization lines of `src/audit-logger.ts`. -/
inductive AuditPhase
  | start
  | success
  | error
  | permissionDenied
  | confirmationRequired
  | modeInit
deriving DecidableEq, Repr

/-- One audit entry. `time` is the logical append index (entries are
time-ordered by construction); `args` holds the sanitized arguments. -/
structure AuditEntry where
  time : Nat
  phase : AuditPhase
  toolName : String
  args : Args
  errMsg : Option String
  durationMs : Option Nat
  modeNote : Option ServerMode

/-- Append-only write to the audit sink; the new entry is stamped with the
current length of the log. -/
def appendEntry (log : List AuditEntry) (phase : AuditPhase) (toolName : String)
    (args : Args) (errMsg : Option String) (durationMs : Option Nat)
    (modeNote : Option ServerMode) : List AuditEntry :=
  log ++ [{ time := log.length, phase := phase, toolName := toolName,
            args := args, errMsg := errMsg, durationMs := durationMs,
            modeNote := modeNote }]

/-- Start marker, `src/audit-logger.ts` `logOperationStart`: sanitized
arguments, no error, no duration. -/
def logOperationStart (log : List AuditEntry) (toolName : String) (args : Args) :
    List AuditEntry :=
  appendEntry log AuditPhase.start toolName (sanitizeArgs args) none none none

/-- Structured write marker, `src/audit-logger.ts` `logWriteOperation`:
sanitizes the arguments and records the success/error phase. -/
def logWriteOperation (log : List AuditEntry) (toolName : String) (args : Args)
    (phase : AuditPhase) (errMsg : Option String) (durationMs : Option Nat) :
    List AuditEntry :=
  appendEntry log phase toolName (sanitizeArgs args) errMsg durationMs none

/-- Success marker, `src/audit-logger.ts` `logOperationSuccess`. In the
source its only call site (index.ts:1178) sits after the dispatch switch in
which every case returns, so it is never reached at runtime. -/
def logOperationSuccess (log : List AuditEntry) (toolName : String) (args : Args)
    (durationMs : Nat) : List AuditEntry :=
  logWriteOperation log toolName args AuditPhase.success none (some durationMs)

/-- Error marker, `src/audit-logger.ts` `logOperationError`. -/
def logOperationError (log : List AuditEntry) (toolName : String) (args : Args)
    (errMsg : String) (durationMs : Nat) : List AuditEntry :=
  logWriteOperation log toolName args AuditPhase.error (some errMsg) (some durationMs)

/-- Permission-denial line, `src/audit-logger.ts` `logPermissionDenied`
(tool name and current mode only). -/
def logPermissionDenied (log : List AuditEntry) (toolName : String)
    (currentMode : ServerMode) : List AuditEntry :=
  appendEntry log AuditPhase.permissionDenied toolName [] none none (some currentMode)

/-- Confirmation-denial line, `src/audit-logger.ts` `logConfirmationRequired`.
Defined in the audit logger but never invoked anywhere in the dispatcher. -/
def logConfirmationRequired (log : List AuditEntry) (toolName : String) :
    List AuditEntry :=
  appendEntry log AuditPhase.confirmationRequired toolName [] none none none

/-- Mode-initialization line, `src/audit-logger.ts` `logModeInitialization`. -/
def logModeInitialization (log : List AuditEntry) (mode : ServerMode) :
    List AuditEntry :=
  appendEntry log AuditPhase.modeInit "" [] none none (some mode)

/-- Permission-denied message of the dispatcher (index.ts:987-991) and of
`assertWriteEnabled` (mode-config.ts). -/
def permissionDeniedMsg (toolName : String) (mode : ServerMode) : String :=
  "Permission denied: \"" ++ toolName ++ "\" requires read-write mode. " ++
    "This server is running in " ++ modeString mode ++ " mode. " ++
    "Set LANGFUSE_MCP_MODE=readwrite to enable write operations."

/-- Confirmation-required message of `validateConfirmation` (mode-config.ts). -/
def confirmationRequiredMsg (toolName : String) : String :=
  "Confirmation required: \"" ++ toolName ++ "\" is a destructive operation. " ++
    "Add \"confirmed\": true to your request to proceed."

/-- Confirmation guard, `src/mode-config.ts` `validateConfirmation`: throws
(modelled as `Except.error`) when the tool is destructive and the confirmed
flag is not literally true (`!confirmed` is true for absent and for false). -/
def validateConfirmation (toolName : String) (confirmed : Option Bool) :
    Except String Unit :=
  if isDestructiveTool toolName && !(confirmed.getD false) then
    Except.error (confirmationRequiredMsg toolName)
  else
    Except.ok ()

/-- Outcome of a tool call as surfaced over the protocol: the text of the
single content block, and the isError flag (absent in the source means
false here). -/
structure ToolResult where
  text : String
  isError : Bool

/-- Outcome of the single backend-client call a write handler makes. -/
inductive BackendOutcome
  | ok (payload : JsonValue)
  | fail (msg : String)

/-- Key lookup in an argument map (JavaScript property access). -/
def lookupArg (args : Args) (key : String) : Option JsonValue :=
  match (args.find? fun kv => kv.1 == key) with
  | some kv => some kv.2
  | none => none

/-- Zod `z.string().min(1)` on a required key: present, a string, nonempty. -/
def requireNonEmptyString (args : Args) (key : String) : Except String String :=
  match lookupArg args key with
  | some (JsonValue.str s) =>
      if 1 ≤ s.length then Except.ok s
      else Except.error ("Invalid input: " ++ key ++ " must contain at least 1 character")
  | _ => Except.error ("Invalid input: " ++ key ++ " must be a string")

/-- Zod `z.string()` on a required key (no minimum length). -/
def requireString (args : Args) (key : String) : Except String String :=
  match lookupArg args key with
  | some (JsonValue.str s) => Except.ok s
  | _ => Except.error ("Invalid input: " ++ key ++ " must be a string")

/-- Zod `z.string().optional()`: absent is fine, present must be a string. -/
def optionalString (args : Args) (key : String) : Except String (Option String) :=
  match lookupArg args key with
  | none => Except.ok none
  | some (JsonValue.str s) => Except.ok (some s)
  | some _ => Except.error ("Invalid input: " ++ key ++ " must be a string")

/-- Zod `z.boolean().optional()`: absent is fine, present must be a boolean. -/
def optionalBool (args : Args) (key : String) : Except String (Option Bool) :=
  match lookupArg args key with
  | none => Except.ok none
  | some (JsonValue.bool b) => Except.ok (some b)
  | some _ => Except.error ("Invalid input: " ++ key ++ " must be a boolean")

/-- Zod `z.enum(allowed)` on a required key. -/
def requireEnum (args : Args) (key : String) (allowed : List String) :
    Except String String :=
  match lookupArg args key with
  | some (JsonValue.str s) =>
      if allowed.contains s then Except.ok s
      else Except.error ("Invalid input: " ++ key ++ " must be one of the allowed values")
  | _ => Except.error ("Invalid input: " ++ key ++ " must be one of the allowed values")

/-- Zod `z.enum(allowed).optional()`. -/
def optionalEnum (args : Args) (key : String) (allowed : List String) :
    Except String Unit :=
  match lookupArg args key with
  | none => Except.ok ()
  | some (JsonValue.str s) =>
      if allowed.contains s then Except.ok ()
      else Except.error ("Invalid input: " ++ key ++ " must be one of the allowed values")
  | some _ => Except.error ("Invalid input: " ++ key ++ " must be one of the allowed values")

/-- Parsed form of `deleteDatasetItemSchema` (`src/tools/delete-dataset-item.ts`):
`itemId: z.string().min(1)`, `confirmed: z.boolean().optional()`. -/
structure DeleteDatasetItemArgs where
  itemId : String
  confirmed : Option Bool

/-- Parse of `deleteDatasetItemSchema`. -/
def parseDeleteDatasetItem (args : Args) : Except String DeleteDatasetItemArgs :=
  match requireNonEmptyString args "itemId" with
  | Except.error e => Except.error e
  | Except.ok itemId =>
    match optionalBool args "confirmed" with
    | Except.error e => Except.error e
    | Except.ok confirmed => Except.ok { itemId := itemId, confirmed := confirmed }

/-- Parse of `createDatasetSchema`: `name: z.string().min(1)`, optional
string description, metadata any. -/
def parseCreateDataset (args : Args) : Except String Unit :=
  match requireNonEmptyString args "name" with
  | Except.error e => Except.error e
  | Except.ok _ =>
    match optionalString args "description" with
    | Except.error e => Except.error e
    | Except.ok _ => Except.ok ()

/-- Parse of `createDatasetItemSchema`: `datasetName: z.string().min(1)`,
any-typed input/expectedOutput/metadata, optional string trace and
observation ids, optional status enum. -/
def parseCreateDatasetItem (args : Args) : Except String Unit :=
  match requireNonEmptyString args "datasetName" with
  | Except.error e => Except.error e
  | Except.ok _ =>
    match optionalString args "sourceTraceId" with
    | Except.error e => Except.error e
    | Except.ok _ =>
      match optionalString args "sourceObservationId" with
      | Except.error e => Except.error e
      | Except.ok _ =>
        match optionalEnum args "status" ["ACTIVE", "ARCHIVED"] with
        | Except.error e => Except.error e
        | Except.ok _ => Except.ok ()

/-- Parse of `createCommentSchema`: required object-type enum, required
objectId and content strings, optional author id. -/
def parseCreateComment (args : Args) : Except String Unit :=
  match requireEnum args "objectType" ["trace", "observation", "session", "prompt"] with
  | Except.error e => Except.error e
  | Except.ok _ =>
    match requireString args "objectId" with
    | Except.error e => Except.error e
    | Except.ok _ =>
      match requireString args "content" with
      | Except.error e => Except.error e
      | Except.ok _ =>
        match optionalString args "authorUserId" with
        | Except.error e => Except.error e
        | Except.ok _ => Except.ok ()

/-- Write handler `createDataset` (`src/tools/create-dataset.ts`): calls the
backend inside its own try/catch and never throws past its boundary. -/
def createDataset (backend : BackendOutcome) : ToolResult :=
  match backend with
  | BackendOutcome.ok data => { text := jsonStringify data, isError := false }
  | BackendOutcome.fail msg => { text := "Error: " ++ msg, isError := true }

/-- Write handler `createDatasetItem` (`src/tools/create-dataset-item.ts`),
same internal try/catch shape. -/
def createDatasetItem (backend : BackendOutcome) : ToolResult :=
  match backend with
  | BackendOutcome.ok data => { text := jsonStringify data, isError := false }
  | BackendOutcome.fail msg => { text := "Error: " ++ msg, isError := true }

/-- Write handler `deleteDatasetItem` (`src/tools/delete-dataset-item.ts`),
same internal try/catch shape. -/
def deleteDatasetItem (backend : BackendOutcome) : ToolResult :=
  match backend with
  | BackendOutcome.ok data => { text := jsonStringify data, isError := false }
  | BackendOutcome.fail msg => { text := "Error: " ++ msg, isError := true }

/-- Write handler `createComment` (`src/tools/create-comment.ts`); its catch
prefixes the message differently from the other write handlers. -/
def createComment (backend : BackendOutcome) : ToolResult :=
  match backend with
  | BackendOutcome.ok data => { text := jsonStringify data, isError := false }
  | BackendOutcome.fail msg => { text := "Error creating comment: " ++ msg, isError := true }

/-- External collaborators of one dispatched call: the backend outcome seen
by a write handler, the zod parse outcome and run outcome of a read-class
tool (read handlers are out-of-scope externals: they may return a result or
throw), and the elapsed-time reading used for durations. -/
structure Env where
  backend : BackendOutcome
  readParse : Except String Unit
  readRun : Except String ToolResult
  elapsedMs : Nat

/-- Body of a read-class switch case (`const args = schema.parse(...);
return await handler(...)`): the parse may throw before the handler runs;
the handler is invoked exactly once otherwise and may itself throw. The
second component counts handler invocations. -/
def runReadCase (env : Env) : Except (String × Nat) (ToolResult × Nat) :=
  match env.readParse with
  | Except.error e => Except.error (e, 0)
  | Except.ok _ =>
    match env.readRun with
    | Except.error e => Except.error (e, 1)
    | Except.ok r => Except.ok (r, 1)

/-- Body of a write case without confirmation check: parse, then invoke the
handler once. -/
def runWriteCase (parse : Except String Unit) (handler : ToolResult) :
    Except (String × Nat) (ToolResult × Nat) :=
  match parse with
  | Except.error e => Except.error (e, 0)
  | Except.ok _ => Except.ok (handler, 1)

/-- Body of the destructive delete cases: parse, run `validateConfirmation`
on the parsed confirmed flag (throwing on denial before any backend
interaction), then invoke the handler once. -/
def runDeleteCase (env : Env) (toolName : String) (args : Args) :
    Except (String × Nat) (ToolResult × Nat) :=
  match parseDeleteDatasetItem args with
  | Except.error e => Except.error (e, 0)
  | Except.ok parsed =>
    match validateConfirmation toolName parsed.confirmed with
    | Except.error e => Except.error (e, 0)
    | Except.ok _ => Except.ok (deleteDatasetItem env.backend, 1)

/-- The switch of the CallToolRequestSchema handler (index.ts:999-1171):
every case returns its handler's result directly (or throws); the default
case throws the unknown-tool error. Errors carry the number of handler
invocations made before the throw. -/
def runCase (env : Env) (toolName : String) (args : Args) :
    Except (String × Nat) (ToolResult × Nat) :=
  match toolName with
  | "list_projects" => runReadCase env
  | "project_overview" => runReadCase env
  | "usage_by_model" => runReadCase env
  | "usage_by_service" => runReadCase env
  | "top_expensive_traces" => runReadCase env
  | "get_trace_detail" => runReadCase env
  | "get_projects" => runReadCase env
  | "get_metrics" => runReadCase env
  | "get_traces" => runReadCase env
  | "get_observations" => runReadCase env
  | "get_cost_analysis" => runReadCase env
  | "get_daily_metrics" => runReadCase env
  | "get_observation_detail" => runReadCase env
  | "get_health_status" => runReadCase env
  | "list_models" => runReadCase env
  | "get_model_detail" => runReadCase env
  | "list_prompts" => runReadCase env
  | "get_prompt_detail" => runReadCase env
  | "create_dataset" => runWriteCase (parseCreateDataset args) (createDataset env.backend)
  | "list_datasets" => runReadCase env
  | "get_dataset" => runReadCase env
  | "create_dataset_item" =>
      runWriteCase (parseCreateDatasetItem args) (createDatasetItem env.backend)
  | "list_dataset_items" => runReadCase env
  | "get_dataset_item" => runReadCase env
  | "delete_dataset_item" => runDeleteCase env toolName args
  | "create_comment" => runWriteCase (parseCreateComment args) (createComment env.backend)
  | "list_comments" => runReadCase env
  | "get_comment" => runReadCase env
  | "write_create_dataset" =>
      runWriteCase (parseCreateDataset args) (createDataset env.backend)
  | "write_create_dataset_item" =>
      runWriteCase (parseCreateDatasetItem args) (createDatasetItem env.backend)
  | "write_delete_dataset_item" => runDeleteCase env toolName args
  | "write_create_comment" =>
      runWriteCase (parseCreateComment args) (createComment env.backend)
  | _ => Except.error ("Unknown tool: " ++ toolName, 0)

/-- Structured error result synthesized by the dispatcher's catch block
(index.ts:1191-1199). -/
def errorResult (msg : String) : ToolResult :=
  { text := "Error: " ++ msg, isError := true }

/-- Everything one dispatched call produced: the protocol result, the audit
entries appended during the call (in append order), and how many times a
handler was invoked. -/
structure CallOutcome where
  result : ToolResult
  audit : List AuditEntry
  handlerCalls : Nat

/-- The CallToolRequestSchema handler (index.ts:979-1201). Control flow of
the source, in order: the permission gate logs a denial and throws when the
tool is not allowed; a START entry is logged for write-class tools; the
switch runs and every case returns directly, so the success-logging block
after the switch (index.ts:1173-1179) is unreachable and is therefore
absent from the ok branch; the catch block logs an ERROR entry for
write-class tools and converts any thrown message into a structured
`errorResult`. The function is total: no exception escapes it. -/
def callTool (mode : ServerMode) (env : Env) (toolName : String) (rawArgs : Args) :
    CallOutcome :=
  let modeConfig := getModeConfig mode
  if isToolAllowed toolName modeConfig then
    let log1 :=
      if isWriteTool toolName then logOperationStart [] toolName rawArgs else []
    match runCase env toolName rawArgs with
    | Except.ok (r, calls) =>
        { result := r, audit := log1, handlerCalls := calls }
    | Except.error (msg, calls) =>
        let log2 :=
          if isWriteTool toolName then
            logOperationError log1 toolName rawArgs msg env.elapsedMs
          else log1
        { result := errorResult msg, audit := log2, handlerCalls := calls }
  else
    let log1 := logPermissionDenied [] toolName mode
    let msg := permissionDeniedMsg toolName mode
    let log2 :=
      if isWriteTool toolName then
        logOperationError log1 toolName rawArgs msg env.elapsedMs
      else log1
    { result := errorResult msg, audit := log2, handlerCalls := 0 }

/-- Sample environment: the backend call succeeds, the read-tool parse and
run succeed, elapsed time 5ms. -/
def demoEnv : Env :=
  { backend := BackendOutcome.ok (JsonValue.str "created"),
    readParse := Except.ok (),
    readRun := Except.ok { text := "data", isError := false },
    elapsedMs := 5 }

/-- Sample environment in which the backend call fails with message boom. -/
def failEnv : Env :=
  { backend := BackendOutcome.fail "boom",
    readParse := Except.ok (),
    readRun := Except.ok { text := "data", isError := false },
    elapsedMs := 7 }

/-- Argument map of a delete-item call: an itemId and an optional
confirmed flag. -/
def mkDeleteArgs (itemId : String) (confirmed : Option Bool) : Args :=
  ("itemId", JsonValue.str itemId) ::
    (match confirmed with
     | some b => [("confirmed", JsonValue.bool b)]
     | none => [])

/-!  Theorems settling the claims. -/

/-- Claim C1: for every tool name and mode, the permitted set is the
read-only set unioned with the write set exactly in readwrite mode:
`isToolAllowed` is true for read tools in every mode, true for write tools
exactly in readwrite mode, and false for any name in neither set. -/
theorem spec_C1_permitted_set (toolName : String) (mode : ServerMode) :
    isToolAllowed toolName (getModeConfig mode) = true ↔
      (toolName ∈ readOnlyTools ∨ (toolName ∈ writeTools ∧ mode = ServerMode.readwrite)) := by
  cases mode <;> simp [isToolAllowed, getModeConfig, List.contains]

/-- Claim C2: the mode resolver returns readwrite exactly when the
lowercased, trimmed configuration value is one of the readwrite synonyms;
every other value, including absence, resolves to readonly (the resolver is
a total function into the two-valued mode type, hence deterministic and
never failing). -/
theorem spec_C2_mode_resolution (raw : Option String) :
    (getServerMode raw = ServerMode.readwrite ↔
      ∃ s, raw = some s ∧
        (s.toLower.trim = "readwrite" ∨ s.toLower.trim = "rw" ∨ s.toLower.trim = "write")) ∧
    (getServerMode raw = ServerMode.readwrite ∨ getServerMode raw = ServerMode.readonly) := by
  constructor
  · cases raw with
    | none => simp [getServerMode]
    | some s =>
        simp only [getServerMode]
        split
        · rename_i h
          simp only [true_iff]
          exact ⟨s, rfl, h⟩
        · rename_i h
          constructor
          · intro hcontra
            exact absurd hcontra (by simp)
          · rintro ⟨t, ht, hcond⟩
            cases Option.some.inj ht
            exact absurd hcond h
  · cases h : getServerMode raw with
    | readonly => exact Or.inr rfl
    | readwrite => exact Or.inl rfl

/-- Claim C3 (code bug): a permitted write invocation whose handler returns
normally produces only a START audit entry and no SUCCESS entry, because
every dispatch switch case returns directly and the success-logging block
after the switch is unreachable. Evaluated at
dispatch("write_create_dataset", name "demo") in readwrite mode with a
succeeding backend: the call succeeds yet the audit log's phases are
exactly [START]. -/
theorem spec_C3_success_never_audited :
    (callTool ServerMode.readwrite demoEnv "write_create_dataset"
        [("name", JsonValue.str "demo")]).result.isError = false ∧
    (callTool ServerMode.readwrite demoEnv "write_create_dataset"
        [("name", JsonValue.str "demo")]).audit.map AuditEntry.phase = [AuditPhase.start] ∧
    ((callTool ServerMode.readwrite demoEnv "write_create_dataset"
        [("name", JsonValue.str "demo")]).audit.map AuditEntry.phase).count
      AuditPhase.success = 0 :=
  ⟨rfl, by decide, by decide⟩

/-- Claim C4 (code bug): dispatch("delete_dataset_item", itemId "x123")
with no confirmed field, in readwrite mode, records a START entry and an
ERROR entry and no DENIED_CONFIRMATION entry: `validateConfirmation`
throws without notifying the audit logger, the thrown error lands in the
generic catch block, and `logConfirmationRequired` has no call site in the
dispatcher. The handler is never invoked. -/
theorem spec_C4_confirmation_denial_misaudited :
    (callTool ServerMode.readwrite demoEnv "delete_dataset_item"
        [("itemId", JsonValue.str "x123")]).audit.map AuditEntry.phase =
      [AuditPhase.start, AuditPhase.error] ∧
    ((callTool ServerMode.readwrite demoEnv "delete_dataset_item"
        [("itemId", JsonValue.str "x123")]).audit.map AuditEntry.phase).count
      AuditPhase.confirmationRequired = 0 ∧
    (callTool ServerMode.readwrite demoEnv "delete_dataset_item"
        [("itemId", JsonValue.str "x123")]).result =
      errorResult (confirmationRequiredMsg "delete_dataset_item") ∧
    (callTool ServerMode.readwrite demoEnv "delete_dataset_item"
        [("itemId", JsonValue.str "x123")]).handlerCalls = 0 :=
  ⟨by decide, by decide, rfl, rfl⟩

/-- Claim C7 (code bug): a permitted write invocation whose handler fails
surfaces the handler's message to the caller, but no ERROR audit entry is
recorded: the write handlers catch backend failures internally and return a
structured error result, so the dispatcher's catch block (the only caller
of `logOperationError`) never observes the failure. Evaluated at
dispatch("write_create_dataset", name "demo") with a backend failing with
message boom: the result carries the message, yet the audit phases are
exactly [START]. -/
theorem spec_C7_handler_failure_not_audited :
    (callTool ServerMode.readwrite failEnv "write_create_dataset"
        [("name", JsonValue.str "demo")]).result.isError = true ∧
    (callTool ServerMode.readwrite failEnv "write_create_dataset"
        [("name", JsonValue.str "demo")]).result.text = "Error: boom" ∧
    (callTool ServerMode.readwrite failEnv "write_create_dataset"
        [("name", JsonValue.str "demo")]).audit.map AuditEntry.phase = [AuditPhase.start] ∧
    ((callTool ServerMode.readwrite failEnv "write_create_dataset"
        [("name", JsonValue.str "demo")]).audit.map AuditEntry.phase).count
      AuditPhase.error = 0 :=
  ⟨rfl, rfl, by decide, by decide⟩

/-- Claim C6 counterexample: dispatching the unknown name
"nonexistent_tool" (no descriptor in either tool set) does write an audit
entry — a PERMISSION_DENIED line — and returns the permission-denied
structured error (the unknown-tool error of the switch default is never
reached), contradicting the claim that unknown operations are not audited
and surface as UnknownOperation. -/
theorem spec_C6_counterexample :
    (callTool ServerMode.readwrite demoEnv "nonexistent_tool" []).audit.map
        AuditEntry.phase = [AuditPhase.permissionDenied] ∧
    (callTool ServerMode.readwrite demoEnv "nonexistent_tool" []).audit.length = 1 ∧
    (callTool ServerMode.readwrite demoEnv "nonexistent_tool" []).result =
      errorResult (permissionDeniedMsg "nonexistent_tool" ServerMode.readwrite) :=
  ⟨by decide, rfl, rfl⟩

/-- Unfolding of `callTool` when the tool is permitted and its switch case
returns a result: the result is returned verbatim and the audit log holds
only the START entry written for write-class tools. -/
theorem callTool_allowed_ok (mode : ServerMode) (env : Env) (toolName : String)
    (rawArgs : Args) (r : ToolResult) (calls : Nat)
    (ha : isToolAllowed toolName (getModeConfig mode) = true)
    (hr : runCase env toolName rawArgs = Except.ok (r, calls)) :
    callTool mode env toolName rawArgs =
      { result := r,
        audit := if isWriteTool toolName then logOperationStart [] toolName rawArgs else [],
        handlerCalls := calls } := by
  simp [callTool, ha, hr]

/-- Unfolding of `callTool` when the tool is permitted but its switch case
throws: the catch block synthesizes the structured error and logs an ERROR
entry for write-class tools. -/
theorem callTool_allowed_err (mode : ServerMode) (env : Env) (toolName : String)
    (rawArgs : Args) (msg : String) (calls : Nat)
    (ha : isToolAllowed toolName (getModeConfig mode) = true)
    (hr : runCase env toolName rawArgs = Except.error (msg, calls)) :
    callTool mode env toolName rawArgs =
      { result := errorResult msg,
        audit :=
          if isWriteTool toolName then
            logOperationError (logOperationStart [] toolName rawArgs) toolName rawArgs
              msg env.elapsedMs
          else [],
        handlerCalls := calls } := by
  by_cases hw : isWriteTool toolName = true <;> simp [callTool, ha, hr, hw]

/-- Unfolding of `callTool` when the permission gate rejects the tool: a
PERMISSION_DENIED entry is logged, the thrown permission error lands in the
catch block (which adds an ERROR entry for write-class names), and no
handler runs. -/
theorem callTool_denied (mode : ServerMode) (env : Env) (toolName : String)
    (rawArgs : Args)
    (ha : isToolAllowed toolName (getModeConfig mode) = false) :
    callTool mode env toolName rawArgs =
      { result := errorResult (permissionDeniedMsg toolName mode),
        audit :=
          if isWriteTool toolName then
            logOperationError (logPermissionDenied [] toolName mode) toolName rawArgs
              (permissionDeniedMsg toolName mode) env.elapsedMs
          else logPermissionDenied [] toolName mode,
        handlerCalls := 0 } := by
  by_cases hw : isWriteTool toolName = true <;> simp [callTool, ha, hw]

/-- Evaluation of the delete-item schema parse on a well-formed argument
map: a nonempty itemId and an optional boolean confirmed flag parse to the
corresponding record. -/
theorem parseDeleteDatasetItem_mk (itemId : String) (h : 1 ≤ itemId.length)
    (confirmed : Option Bool) :
    parseDeleteDatasetItem (mkDeleteArgs itemId confirmed) =
      Except.ok { itemId := itemId, confirmed := confirmed } := by
  cases confirmed <;>
    simp [parseDeleteDatasetItem, mkDeleteArgs, requireNonEmptyString, optionalBool,
          lookupArg, List.find?, h]

/-- Evaluation of the destructive switch-case body: with a well-formed
argument map it invokes the handler exactly when the confirmed flag is
literally true, and otherwise throws the confirmation-required error before
any backend interaction. -/
theorem runDeleteCase_mk (env : Env) (toolName : String)
    (hd : isDestructiveTool toolName = true)
    (itemId : String) (h : 1 ≤ itemId.length) (confirmed : Option Bool) :
    runDeleteCase env toolName (mkDeleteArgs itemId confirmed) =
      (if confirmed = some true then Except.ok (deleteDatasetItem env.backend, 1)
       else Except.error (confirmationRequiredMsg toolName, 0)) := by
  rw [runDeleteCase, parseDeleteDatasetItem_mk itemId h confirmed]
  cases confirmed with
  | none => simp [validateConfirmation, hd]
  | some b => cases b <;> simp [validateConfirmation, hd]

/-- Claim C5: for every destructive operation in readwrite mode with a
well-formed argument map, the dispatcher invokes the underlying handler
exactly once when the confirmed flag is literally true, and when confirmed
is false or absent it returns the ConfirmationRequired structured error
without ever invoking the handler. -/
theorem spec_C5_destructive_confirmation (env : Env) (toolName : String)
    (hd : isDestructiveTool toolName = true) (itemId : String)
    (hlen : 1 ≤ itemId.length) (confirmed : Option Bool) :
    (confirmed = some true →
      (callTool ServerMode.readwrite env toolName (mkDeleteArgs itemId confirmed)).handlerCalls = 1) ∧
    (confirmed ≠ some true →
      (callTool ServerMode.readwrite env toolName (mkDeleteArgs itemId confirmed)).handlerCalls = 0 ∧
      (callTool ServerMode.readwrite env toolName (mkDeleteArgs itemId confirmed)).result =
        errorResult (confirmationRequiredMsg toolName)) := by
  have htool : toolName = "write_delete_dataset_item" ∨ toolName = "delete_dataset_item" := by
    have h := hd
    simp only [isDestructiveTool, Bool.or_eq_true, beq_iff_eq] at h
    exact h
  have hrun : runCase env toolName (mkDeleteArgs itemId confirmed) =
      runDeleteCase env toolName (mkDeleteArgs itemId confirmed) := by
    rcases htool with h | h <;> subst h <;> rfl
  have hallow : isToolAllowed toolName (getModeConfig ServerMode.readwrite) = true := by
    rcases htool with h | h <;> subst h <;> rfl
  constructor
  · intro hc
    have hr : runCase env toolName (mkDeleteArgs itemId confirmed) =
        Except.ok (deleteDatasetItem env.backend, 1) := by
      rw [hrun, runDeleteCase_mk env toolName hd itemId hlen confirmed, if_pos hc]
    rw [callTool_allowed_ok ServerMode.readwrite env toolName _ _ _ hallow hr]
  · intro hc
    have hr : runCase env toolName (mkDeleteArgs itemId confirmed) =
        Except.error (confirmationRequiredMsg toolName, 0) := by
      rw [hrun, runDeleteCase_mk env toolName hd itemId hlen confirmed, if_neg hc]
    rw [callTool_allowed_err ServerMode.readwrite env toolName _ _ _ hallow hr]
    exact ⟨rfl, rfl⟩

/-- Claim C5 witness: at the destructive tool write_delete_dataset_item
with itemId "x123" and confirmed literally true, the handler is invoked
exactly once. -/
theorem spec_C5_destructive_confirmation_witness :
    isDestructiveTool "write_delete_dataset_item" = true ∧
    1 ≤ ("x123" : String).length ∧
    (callTool ServerMode.readwrite demoEnv "write_delete_dataset_item"
        (mkDeleteArgs "x123" (some true))).handlerCalls = 1 :=
  ⟨by decide, by decide,
    (spec_C5_destructive_confirmation demoEnv "write_delete_dataset_item"
        (by decide) "x123" (by decide) (some true)).1 rfl⟩

/-- Claim C6 amended: for every operation name with no descriptor in either
tool set, the dispatcher fails closed at the permission gate: it returns
the structured permission-denied error (not an UnknownOperation error),
never invokes a handler, and writes exactly one PERMISSION_DENIED audit
entry, followed by one ERROR audit entry when the unknown name is
classified write-class by its prefix. -/
theorem spec_C6_amended (mode : ServerMode) (env : Env) (toolName : String)
    (rawArgs : Args) (h1 : toolName ∉ readOnlyTools) (h2 : toolName ∉ writeTools) :
    (callTool mode env toolName rawArgs).result =
      errorResult (permissionDeniedMsg toolName mode) ∧
    (callTool mode env toolName rawArgs).result.isError = true ∧
    (callTool mode env toolName rawArgs).handlerCalls = 0 ∧
    (callTool mode env toolName rawArgs).audit.map AuditEntry.phase =
      AuditPhase.permissionDenied ::
        (if isWriteTool toolName then [AuditPhase.error] else []) := by
  have hallow : isToolAllowed toolName (getModeConfig mode) = false := by
    cases mode <;> simp [isToolAllowed, getModeConfig, List.contains, h1, h2]
  rw [callTool_denied mode env toolName rawArgs hallow]
  refine ⟨rfl, rfl, rfl, ?_⟩
  by_cases hw : isWriteTool toolName = true <;>
    simp [hw, logPermissionDenied, logOperationError, logWriteOperation, appendEntry]

/-- Claim C6 amended witness: the unknown name "nonexistent_tool" is in
neither tool set, and dispatching it in readonly mode invokes no handler. -/
theorem spec_C6_amended_witness :
    ("nonexistent_tool" ∉ readOnlyTools) ∧ ("nonexistent_tool" ∉ writeTools) ∧
    (callTool ServerMode.readonly demoEnv "nonexistent_tool" []).handlerCalls = 0 :=
  ⟨by decide, by decide,
    (spec_C6_amended ServerMode.readonly demoEnv "nonexistent_tool" []
        (by decide) (by decide)).2.2.1⟩

/-- Claim C8 counterexample: an input whose sensitive key secretKey holds
the empty string (falsy in JavaScript) is not redacted: the sanitized
arguments still map secretKey to the original value, not to the redaction
marker, because the redaction is guarded by JS truthiness. -/
theorem spec_C8_counterexample :
    sanitizeArgs [("secretKey", JsonValue.str "")] = [("secretKey", JsonValue.str "")] ∧
    JsonValue.str "" ≠ JsonValue.str "[REDACTED]" :=
  ⟨rfl, by intro h; injection h with h'; exact absurd h' (by decide)⟩

/-- Claim C8 amended: for every input map entry whose key is sensitive and
whose value is truthy, `sanitizeArgs` replaces the value with the fixed
redaction marker at its position (falsy sensitive values pass through
unchanged); every non-sensitive string longer than 200 characters is
replaced by its 200-character prefix plus the truncation suffix; every
non-sensitive object whose serialization exceeds 300 characters is replaced
by the elision marker; and the start, error, and success audit constructors
all record the same `sanitizeArgs` image of the input, so redaction is
identical across paths. -/
theorem spec_C8_amended (pre post : Args) (key : String) (v : JsonValue)
    (hs : key ∈ sensitiveFields) (ht : truthy v = true) :
    sanitizeArgs (pre ++ (key, v) :: post) =
      sanitizeArgs pre ++ (key, JsonValue.str "[REDACTED]") :: sanitizeArgs post ∧
    (∀ k s, k ∉ sensitiveFields → s.length > 200 →
      sanitizeArgs [(k, JsonValue.str s)] =
        [(k, JsonValue.str (s.take 200 ++ "...[truncated]"))]) ∧
    (∀ k fields, k ∉ sensitiveFields →
      (jsonStringify (JsonValue.obj fields)).length > 300 →
      sanitizeArgs [(k, JsonValue.obj fields)] = [(k, JsonValue.str "[large object]")]) ∧
    (∀ log t msg d,
      (logOperationStart log t (pre ++ (key, v) :: post)).map AuditEntry.args =
        log.map AuditEntry.args ++ [sanitizeArgs (pre ++ (key, v) :: post)] ∧
      (logOperationError log t (pre ++ (key, v) :: post) msg d).map AuditEntry.args =
        log.map AuditEntry.args ++ [sanitizeArgs (pre ++ (key, v) :: post)] ∧
      (logOperationSuccess log t (pre ++ (key, v) :: post) d).map AuditEntry.args =
        log.map AuditEntry.args ++ [sanitizeArgs (pre ++ (key, v) :: post)]) := by
  have hcontains : sensitiveFields.contains key = true := by
    simpa [List.contains] using hs
  refine ⟨?_, ?_, ?_, ?_⟩
  · show (((pre ++ (key, v) :: post).map redactEntry).map truncateEntry) = _
    simp only [List.map_append, List.map_cons]
    congr 1
    show truncateEntry (redactEntry (key, v)) :: _ = _
    congr 1
    rw [redactEntry]
    rw [if_pos (by rw [hcontains, ht]; rfl)]
    rw [truncateEntry]
    norm_num
    exact fun h => absurd h (by decide)
  · intro k s hk hlen
    have hk' : sensitiveFields.contains k = false := by
      simp [List.contains, hk]
    show ([(k, JsonValue.str s)].map redactEntry).map truncateEntry = _
    simp only [List.map_cons, List.map_nil]
    rw [redactEntry]
    rw [if_neg (by rw [hk']; simp)]
    rw [truncateEntry]
    rw [if_pos hlen]
  · intro k fields hk hbig
    have hk' : sensitiveFields.contains k = false := by
      simp [List.contains, hk]
    show ([(k, JsonValue.obj fields)].map redactEntry).map truncateEntry = _
    simp only [List.map_cons, List.map_nil]
    rw [redactEntry]
    rw [if_neg (by rw [hk']; simp)]
    rw [truncateEntry]
    rw [if_pos hbig]
  · intro log t msg d
    refine ⟨?_, ?_, ?_⟩ <;>
      simp [logOperationStart, logOperationError, logOperationSuccess,
            logWriteOperation, appendEntry]

/-- Claim C8 amended witness: the sensitive key secretKey with the truthy
value "sk-abc" is redacted by `sanitizeArgs`. -/
theorem spec_C8_amended_witness :
    ("secretKey" ∈ sensitiveFields) ∧ truthy (JsonValue.str "sk-abc") = true ∧
    sanitizeArgs [("secretKey", JsonValue.str "sk-abc")] =
      [("secretKey", JsonValue.str "[REDACTED]")] :=
  ⟨by decide, rfl,
    (spec_C8_amended [] [] "secretKey" (JsonValue.str "sk-abc") (by decide) rfl).1⟩

/-- Claim C9: the dispatcher is a total function (no exception escapes it by
construction) and every call ends in one of two well-formed terminal
shapes: a structured result explicitly marked as an error, synthesized as
`errorResult` from the failure message (unknown operation, permission
denial, missing confirmation, validation error, or a throwing case body),
or the invoked case's own result returned verbatim under a granted
permission check. -/
theorem spec_C9_structured_results (mode : ServerMode) (env : Env)
    (toolName : String) (rawArgs : Args) :
    ((callTool mode env toolName rawArgs).result.isError = true ∧
      ∃ msg, (callTool mode env toolName rawArgs).result = errorResult msg) ∨
    (∃ r calls, runCase env toolName rawArgs = Except.ok (r, calls) ∧
      isToolAllowed toolName (getModeConfig mode) = true ∧
      (callTool mode env toolName rawArgs).result = r) := by
  by_cases ha : isToolAllowed toolName (getModeConfig mode) = true
  · rcases hr : runCase env toolName rawArgs with ⟨msg, calls⟩ | ⟨r, calls⟩
    · left
      rw [callTool_allowed_err mode env toolName rawArgs msg calls ha hr]
      exact ⟨rfl, msg, rfl⟩
    · right
      refine ⟨r, calls, rfl, ha, ?_⟩
      rw [callTool_allowed_ok mode env toolName rawArgs r calls ha hr]
  · left
    have ha' : isToolAllowed toolName (getModeConfig mode) = false := by
      simpa using ha
    rw [callTool_denied mode env toolName rawArgs ha']
    exact ⟨rfl, permissionDeniedMsg toolName mode, rfl⟩

/-- Claim C10: the four legacy unprefixed tool names are full write-class
aliases of their write_-prefixed counterparts: each is classified write by
`isWriteTool`, each is permitted exactly in readwrite mode, and
delete_dataset_item — like write_delete_dataset_item — is classified
destructive and subject to the confirmation check in its dispatch case
(handler not invoked and ConfirmationRequired returned without the flag,
handler invoked with it). -/
theorem spec_C10_legacy_write_aliases (mode : ServerMode) (env : Env) :
    isWriteTool "create_dataset" = true ∧
    isWriteTool "create_dataset_item" = true ∧
    isWriteTool "delete_dataset_item" = true ∧
    isWriteTool "create_comment" = true ∧
    (isToolAllowed "create_dataset" (getModeConfig mode) = true ↔ mode = ServerMode.readwrite) ∧
    (isToolAllowed "create_dataset_item" (getModeConfig mode) = true ↔ mode = ServerMode.readwrite) ∧
    (isToolAllowed "delete_dataset_item" (getModeConfig mode) = true ↔ mode = ServerMode.readwrite) ∧
    (isToolAllowed "create_comment" (getModeConfig mode) = true ↔ mode = ServerMode.readwrite) ∧
    isDestructiveTool "delete_dataset_item" = true ∧
    isDestructiveTool "write_delete_dataset_item" = true ∧
    (callTool ServerMode.readwrite env "delete_dataset_item"
        (mkDeleteArgs "x123" none)).handlerCalls = 0 ∧
    (callTool ServerMode.readwrite env "delete_dataset_item"
        (mkDeleteArgs "x123" none)).result =
      errorResult (confirmationRequiredMsg "delete_dataset_item") ∧
    (callTool ServerMode.readwrite env "delete_dataset_item"
        (mkDeleteArgs "x123" (some true))).handlerCalls = 1 := by
  refine ⟨rfl, rfl, rfl, rfl, ?_, ?_, ?_, ?_, rfl, rfl, rfl, rfl, rfl⟩ <;>
    cases mode <;> decide

end LangfuseMcp
